import Mathlib

/-!
Shallow embedding of ctdb's unix-socket daemon framework
(src/ctdb/common/sock_daemon.c).

The C code is event-driven (tevent) with a hierarchical allocator (talloc)
whose per-node destructors drive teardown.  The embedding models each C
function that the claims are about as a pure Lean function producing, in
order, the list of observable events the C code performs (callback
invocations, fd opens/closes, unlinks, frees), together with the updated
state and return value.  External collaborators (talloc allocation success,
comm_setup's result, accept results, callback presence and results) are
inputs, mirroring the corresponding out-of-scope calls in the C source.
-/

namespace SockDaemon

/-- Linux errno values used by sock_daemon.c. -/
def errNoMem : Int := 12

/-- EINVAL. -/
def errInval : Int := 22

/-- EIO. -/
def errIo : Int := 5

/-- EINTR. -/
def errIntr : Int := 4

/-- ESRCH. -/
def errSrch : Int := 3

/-- Signal numbers (Linux). -/
def SIGHUP : Nat := 1

/-- SIGINT. -/
def SIGINT : Nat := 2

/-- SIGUSR1. -/
def SIGUSR1 : Nat := 10

/-- SIGTERM. -/
def SIGTERM : Nat := 15

/-- The size of the sun_path member of struct sockaddr_un on Linux:
108 bytes. -/
def sun_path_size : Nat := 108

/-- Observable actions performed by the embedded code, in program order. -/
inductive Event where
  | fdOpened (fd : Int)
  | fdClosed (fd : Int)
  | unlinked (path : String)
  | connectCalled
  | disconnectCalled
  | commFreed
  | clientRecFreed
  | slotRemoved
  | sessionFreed
  | logAcceptFail
  | acceptReposted
  | clientInstalled
  | startupCalled
  | reconfigureCalled
  | shutdownCalled
  | pidReleased
  deriving DecidableEq, Repr

/-- struct sock_client_context: the per-connection session.  Only the field
the claims are about is kept: the accepted fd (-1 is the closed sentinel). -/
structure SockClientContext where
  fd : Int
  deriving DecidableEq, Repr

/-- sock_client_context_destructor: TALLOC_FREE(client_ctx->client) (removes
the registry slot), TALLOC_FREE(client_ctx->comm), then close(fd) guarded by
the -1 sentinel. -/
def sock_client_context_destructor (c : SockClientContext) : List Event :=
  [Event.slotRemoved, Event.commFreed] ++
    (if c.fd ≠ -1 then [Event.fdClosed c.fd] else [])

/-- talloc_free(client_ctx) on a session whose destructor is installed:
the destructor runs, then the session memory is released. -/
def talloc_free_client_ctx (c : SockClientContext) : List Event :=
  sock_client_context_destructor c ++ [Event.sessionFreed]

/-- sock_client_dead_handler: if sock->funcs->disconnect != NULL invoke it,
then talloc_free(client_ctx). -/
def sock_client_dead_handler (disconnect_defined : Bool)
    (c : SockClientContext) : List Event :=
  (if disconnect_defined then [Event.disconnectCalled] else []) ++
    talloc_free_client_ctx c

/-- sock_client_read_done: read_recv is consulted; on failure the session is
freed (no disconnect callback on this path), on success nothing happens. -/
def sock_client_read_done (read_recv_ok : Bool)
    (c : SockClientContext) : List Event :=
  if read_recv_ok then [] else talloc_free_client_ctx c

/-- One slot of a listener's session registry: a struct sock_client.
client_ctx is none when sock_client_context_init never wrote *result
(the slot was talloc_zero'd, so the pointer stays NULL). -/
structure RegEntry where
  destructor_set : Bool
  client_ctx : Option SockClientContext
  deriving DecidableEq, Repr

/-- sock_socket_start_client_destructor: DLIST_REMOVE from client_list then
TALLOC_FREE(client->client_ctx); freeing a NULL pointer does nothing. -/
def sock_socket_start_client_destructor (e : RegEntry) : List Event :=
  Event.clientRecFreed ::
    (match e.client_ctx with
     | some c => talloc_free_client_ctx c
     | none => [])

/-- sock_socket_start_state_destructor: while client_list is non-empty,
talloc_free the head client (running its destructor). -/
def sock_socket_start_state_destructor : List RegEntry → List Event
  | [] => []
  | e :: rest =>
      sock_socket_start_client_destructor e ++
        sock_socket_start_state_destructor rest

/-! ### Session construction (sock_client_context_init) -/

/-- Inputs of sock_client_context_init that come from collaborators:
whether talloc_zero of the session succeeds, comm_setup's return value,
and the on_connect callback (none when sock->funcs->connect == NULL,
some b when the callback is present and returns b). -/
structure ClientEnv where
  allocClientCtxOk : Bool
  commSetupRet : Int
  connectResult : Option Bool
  deriving DecidableEq, Repr

/-- What sock_client_context_init did: its int return value, whether it
wrote *result (it does so only when the session survives), and the events
it performed. -/
structure InitOutcome where
  ret : Int
  resultWritten : Bool
  events : List Event
  deriving DecidableEq, Repr

/-- sock_client_context_init: talloc_zero the session (ENOMEM on failure);
comm_setup (on failure talloc_free(client_ctx) — its destructor is not yet
installed, so the fd is NOT closed); if on_connect exists, call it, and on
false talloc_free(client_ctx) and close(client_fd), returning 0 without
writing *result; otherwise install the destructor and write *result. -/
def sock_client_context_init (env : ClientEnv) (client_fd : Int) :
    InitOutcome :=
  if env.allocClientCtxOk = false then
    { ret := errNoMem, resultWritten := false, events := [] }
  else if env.commSetupRet ≠ 0 then
    { ret := env.commSetupRet, resultWritten := false,
      events := [Event.sessionFreed] }
  else
    match env.connectResult with
    | none =>
        { ret := 0, resultWritten := true, events := [] }
    | some true =>
        { ret := 0, resultWritten := true, events := [Event.connectCalled] }
    | some false =>
        { ret := 0, resultWritten := false,
          events := [Event.connectCalled, Event.sessionFreed,
                     Event.fdClosed client_fd] }

/-! ### Accept loop (sock_socket_start_new_client) -/

/-- Inputs of one completion of the asynchronous accept: the accepted fd
(none when accept_recv returned -1), whether the re-posted accept_send
allocation succeeds, whether talloc_zero of the sock_client record
succeeds, and the session-construction inputs. -/
structure AcceptEnv where
  acceptedFd : Option Int
  repostOk : Bool
  allocClientOk : Bool
  client : ClientEnv
  deriving DecidableEq, Repr

/-- What one invocation of sock_socket_start_new_client did: its events,
whether the accept loop is still alive afterwards (tevent_req_nomem marks
the owning request failed, ending the loop), the error it set on the
owning request (if any), and the updated client_list. -/
structure HandlerOutcome where
  events : List Event
  loopAlive : Bool
  reqErr : Option Int
  client_list : List RegEntry
  deriving DecidableEq, Repr

/-- sock_socket_start_new_client: accept_recv (log on failure), re-post
accept_send (tevent_req_nomem on allocation failure), then, if an fd was
accepted: talloc_zero the client record (on failure close the fd and fail
the request), run sock_client_context_init (on failure talloc_free the
record and return — the fd is not closed on this path), else install the
client destructor and DLIST_ADD the record to client_list. -/
def sock_socket_start_new_client (env : AcceptEnv)
    (client_list : List RegEntry) : HandlerOutcome :=
  let failLog : List Event :=
    match env.acceptedFd with
    | none => [Event.logAcceptFail]
    | some _ => []
  if env.repostOk = false then
    { events := failLog, loopAlive := false, reqErr := some errNoMem,
      client_list := client_list }
  else
    let evs := failLog ++ [Event.acceptReposted]
    match env.acceptedFd with
    | none =>
        { events := evs, loopAlive := true, reqErr := none,
          client_list := client_list }
    | some fd =>
        if env.allocClientOk = false then
          { events := evs ++ [Event.fdClosed fd], loopAlive := false,
            reqErr := some errNoMem, client_list := client_list }
        else
          let o := sock_client_context_init env.client fd
          if o.ret ≠ 0 then
            { events := evs ++ o.events ++ [Event.clientRecFreed],
              loopAlive := true, reqErr := none,
              client_list := client_list }
          else
            { events := evs ++ o.events ++ [Event.clientInstalled],
              loopAlive := true, reqErr := none,
              client_list :=
                { destructor_set := true,
                  client_ctx :=
                    if o.resultWritten then some { fd := fd } else none }
                  :: client_list }

/-! ### Listener setup (socket_setup, sock_socket_init,
sock_daemon_add_unix) -/

/-- Collaborator outcomes for socket_setup: whether socket(2),
set_blocking, bind(2) and listen(2) succeed, and the fd number socket(2)
returns when it succeeds. -/
structure SetupEnv where
  socketOk : Bool
  setBlockingOk : Bool
  bindOk : Bool
  listenOk : Bool
  newFd : Int
  deriving DecidableEq, Repr

/-- socket_setup: strlcpy the path into sun_path and fail if it does not
fit; socket(2); set nonblocking; optionally unlink; bind; listen(,10).
Every failure after socket(2) closes the fd; returns the fd or -1. -/
def socket_setup (sockpath : String) (remove_before_use : Bool)
    (env : SetupEnv) : Int × List Event :=
  if sun_path_size ≤ sockpath.length then (-1, [])
  else if env.socketOk = false then (-1, [])
  else
    let fd := env.newFd
    if env.setBlockingOk = false then
      (-1, [Event.fdOpened fd, Event.fdClosed fd])
    else
      let evs := [Event.fdOpened fd] ++
        (if remove_before_use then [Event.unlinked sockpath] else [])
      if env.bindOk = false then (-1, evs ++ [Event.fdClosed fd])
      else if env.listenOk = false then (-1, evs ++ [Event.fdClosed fd])
      else (fd, evs)

/-- struct sock_socket_funcs, reduced to which callback pointers are
non-NULL (present). -/
structure SockSocketFuncs where
  connect_defined : Bool
  disconnect_defined : Bool
  read_send_defined : Bool
  read_recv_defined : Bool
  deriving DecidableEq, Repr

/-- struct sock_socket: one configured listener.  sessions stands for the
client_list of its running accept-loop state (reachable via sock->req). -/
structure SockSocketT where
  sockpath : String
  fd : Int
  sessions : List RegEntry
  deriving DecidableEq, Repr

/-- sock_socket_destructor: close the listening fd (guarded by the -1
sentinel) and unlink the socket path. -/
def sock_socket_destructor (s : SockSocketT) : List Event :=
  (if s.fd ≠ -1 then [Event.fdClosed s.fd] else []) ++
    [Event.unlinked s.sockpath]

/-- sock_socket_init: EINVAL when funcs is NULL or read_send/read_recv is
missing; talloc_zero (ENOMEM on failure); socket_setup, mapping its -1 to
EIO (freeing the partial sock); else install the destructor and return the
listener. -/
def sock_socket_init (sockpath : String) (funcs : Option SockSocketFuncs)
    (remove_before_use : Bool) (allocOk : Bool) (env : SetupEnv) :
    Except Int SockSocketT × List Event :=
  match funcs with
  | none => (Except.error errInval, [])
  | some f =>
      if f.read_send_defined = false ∨ f.read_recv_defined = false then
        (Except.error errInval, [])
      else if allocOk = false then (Except.error errNoMem, [])
      else
        let r := socket_setup sockpath remove_before_use env
        if r.1 = -1 then (Except.error errIo, r.2)
        else (Except.ok { sockpath := sockpath, fd := r.1, sessions := [] },
              r.2)

/-- struct sock_daemon_funcs, reduced to which callback pointers are
non-NULL. -/
structure SockDaemonFuncs where
  startup_defined : Bool
  reconfigure_defined : Bool
  shutdown_defined : Bool
  deriving DecidableEq, Repr

/-- struct sock_daemon_context.  funcs may itself be NULL; pid_ctx is
whether the PID-file context is currently held. -/
structure SockDaemonContext where
  funcs : Option SockDaemonFuncs
  pid_ctx : Bool
  socket_list : List SockSocketT
  deriving DecidableEq, Repr

/-- sock_daemon_add_unix: remove_before_use := (pid_ctx != NULL);
sock_socket_init; on failure return its error (the context unchanged),
else DLIST_ADD the listener to socket_list and return 0. -/
def sock_daemon_add_unix (sockd : SockDaemonContext) (sockpath : String)
    (funcs : Option SockSocketFuncs) (allocOk : Bool) (env : SetupEnv) :
    SockDaemonContext × Int × List Event :=
  let remove_before_use := sockd.pid_ctx
  match sock_socket_init sockpath funcs remove_before_use allocOk env with
  | (Except.error e, evs) => (sockd, e, evs)
  | (Except.ok sock, evs) =>
      ({ sockd with socket_list := sock :: sockd.socket_list }, 0, evs)

/-! ### Daemon lifecycle (shutdown, signal handler) -/

/-- The while loop of sock_daemon_shutdown: pop each listener off
socket_list, TALLOC_FREE(sock->req) (the accept-loop state's destructor
frees every session in its client_list), then TALLOC_FREE(sock) (close the
listening fd, unlink the path). -/
def shutdown_loop : List SockSocketT → List Event
  | [] => []
  | sock :: rest =>
      sock_socket_start_state_destructor sock.sessions ++
        sock_socket_destructor sock ++ shutdown_loop rest

/-- Whether sockd->funcs != NULL && sockd->funcs->shutdown != NULL. -/
def has_shutdown_cb (sockd : SockDaemonContext) : Bool :=
  match sockd.funcs with
  | some f => f.shutdown_defined
  | none => false

/-- Whether sockd->funcs != NULL && sockd->funcs->reconfigure != NULL. -/
def has_reconfigure_cb (sockd : SockDaemonContext) : Bool :=
  match sockd.funcs with
  | some f => f.reconfigure_defined
  | none => false

/-- sock_daemon_shutdown: tear every listener down, then invoke the
application shutdown callback if defined, then TALLOC_FREE(pid_ctx). -/
def sock_daemon_shutdown (sockd : SockDaemonContext) :
    SockDaemonContext × List Event :=
  ({ sockd with socket_list := [], pid_ctx := false },
   shutdown_loop sockd.socket_list ++
     (if has_shutdown_cb sockd then [Event.shutdownCalled] else []) ++
     (if sockd.pid_ctx then [Event.pidReleased] else []))

/-- sock_daemon_reconfigure: invoke the application reconfigure callback
if defined. -/
def sock_daemon_reconfigure (sockd : SockDaemonContext) : List Event :=
  if has_reconfigure_cb sockd then [Event.reconfigureCalled] else []

/-- sock_daemon_signal_handler: SIGHUP/SIGUSR1 run sock_daemon_reconfigure
and return (the run request stays pending); SIGINT/SIGTERM run
sock_daemon_shutdown and tevent_req_error(req, EINTR).  The Option Int is
the completion the handler posts on the pending run request (none: the run
operation continues). -/
def sock_daemon_signal_handler (signum : Nat) (sockd : SockDaemonContext) :
    SockDaemonContext × List Event × Option Int :=
  if signum = SIGHUP ∨ signum = SIGUSR1 then
    (sockd, sock_daemon_reconfigure sockd, none)
  else if signum = SIGINT ∨ signum = SIGTERM then
    ((sock_daemon_shutdown sockd).1, (sock_daemon_shutdown sockd).2,
     some errIntr)
  else (sockd, [], none)

/-- Events that belong to listener/session teardown, as opposed to the
application shutdown callback and PID-file release. -/
def is_teardown_event : Event → Bool
  | Event.fdClosed _ => true
  | Event.unlinked _ => true
  | Event.commFreed => true
  | Event.clientRecFreed => true
  | Event.slotRemoved => true
  | Event.sessionFreed => true
  | _ => false

/-! ### Helper lemmas (shared) -/

theorem teardown_only_client_destructor (e : RegEntry) :
    ∀ x ∈ sock_socket_start_client_destructor e, is_teardown_event x = true := by
  intro x hx
  unfold sock_socket_start_client_destructor talloc_free_client_ctx
    sock_client_context_destructor at hx
  rcases e with ⟨d, ctx⟩
  cases ctx with
  | none => simp at hx; simp [hx, is_teardown_event]
  | some c =>
      by_cases h : c.fd = -1
      · simp [h] at hx
        rcases hx with rfl | rfl | rfl | rfl <;> simp [is_teardown_event]
      · simp [h] at hx
        rcases hx with rfl | rfl | rfl | rfl | rfl <;>
          simp [is_teardown_event]

theorem teardown_only_state_destructor (cl : List RegEntry) :
    ∀ x ∈ sock_socket_start_state_destructor cl,
      is_teardown_event x = true := by
  induction cl with
  | nil => intro x hx; simp [sock_socket_start_state_destructor] at hx
  | cons e rest ih =>
      intro x hx
      rw [sock_socket_start_state_destructor, List.mem_append] at hx
      rcases hx with hx | hx
      · exact teardown_only_client_destructor e x hx
      · exact ih x hx

theorem teardown_only_sock_destructor (s : SockSocketT) :
    ∀ x ∈ sock_socket_destructor s, is_teardown_event x = true := by
  intro x hx
  unfold sock_socket_destructor at hx
  by_cases h : s.fd = -1 <;> simp [h] at hx <;>
    first
      | (rcases hx with h1 | h1 <;> simp [h1, is_teardown_event])
      | simp [hx, is_teardown_event]

theorem teardown_only_shutdown_loop (l : List SockSocketT) :
    ∀ x ∈ shutdown_loop l, is_teardown_event x = true := by
  induction l with
  | nil => intro x hx; simp [shutdown_loop] at hx
  | cons s rest ih =>
      intro x hx
      rw [shutdown_loop, List.append_assoc, List.mem_append] at hx
      rcases hx with hx | hx
      · exact teardown_only_state_destructor s.sessions x hx
      · rw [List.mem_append] at hx
        rcases hx with hx | hx
        · exact teardown_only_sock_destructor s x hx
        · exact ih x hx

theorem mem_shutdown_loop_of_mem (l : List SockSocketT) (s : SockSocketT)
    (hs : s ∈ l) (x : Event)
    (hx : x ∈ sock_socket_start_state_destructor s.sessions ++
            sock_socket_destructor s) :
    x ∈ shutdown_loop l := by
  induction l with
  | nil => simp at hs
  | cons t rest ih =>
      rw [shutdown_loop, List.append_assoc, ← List.append_assoc,
        List.mem_append]
      rcases List.mem_cons.mp hs with rfl | hs
      · exact Or.inl hx
      · exact Or.inr (ih hs)

theorem sessionFreed_mem_state_destructor (cl : List RegEntry)
    (en : RegEntry) (hen : en ∈ cl) (c : SockClientContext)
    (hc : en.client_ctx = some c) :
    Event.sessionFreed ∈ sock_socket_start_state_destructor cl := by
  induction cl with
  | nil => simp at hen
  | cons e rest ih =>
      rw [sock_socket_start_state_destructor, List.mem_append]
      rcases List.mem_cons.mp hen with rfl | hen
      · left
        unfold sock_socket_start_client_destructor
        rw [hc]
        simp [talloc_free_client_ctx]
      · exact Or.inr (ih hen)

/-! ### Claim theorems -/

/-- C1 counterexample: a session with a live fd destroyed by the
read-failure trigger (read_recv reports failure) has its resources
released (fd closed, session freed) with zero invocations of
on_disconnect, refuting that exactly one on_disconnect occurs before
release regardless of which destruction trigger fires. -/
theorem c1_read_failure_no_disconnect :
    (sock_client_read_done false { fd := 7 }).count Event.disconnectCalled
        = 0 ∧
    Event.fdClosed 7 ∈ sock_client_read_done false { fd := 7 } ∧
    Event.sessionFreed ∈ sock_client_read_done false { fd := 7 } := by
  decide

/-- C1 (amended): on_disconnect (when defined) is invoked exactly once,
and before any resource-release event, when the session is destroyed by
the dead-peer trigger; the read-failure and listener-teardown triggers
release the session's resources without invoking on_disconnect. -/
theorem disconnect_exactly_once_on_dead_only (c : SockClientContext) :
    (sock_client_dead_handler true c).count Event.disconnectCalled = 1 ∧
    sock_client_dead_handler true c =
      Event.disconnectCalled :: talloc_free_client_ctx c ∧
    (talloc_free_client_ctx c).count Event.disconnectCalled = 0 ∧
    (sock_client_dead_handler false c).count Event.disconnectCalled = 0 ∧
    (sock_client_read_done false c).count Event.disconnectCalled = 0 ∧
    (sock_socket_start_state_destructor
        [{ destructor_set := true, client_ctx := some c }]).count
      Event.disconnectCalled = 0 := by
  by_cases h : c.fd = -1 <;>
    simp [h, sock_client_dead_handler, sock_client_read_done,
      sock_socket_start_state_destructor, sock_socket_start_client_destructor,
      talloc_free_client_ctx, sock_client_context_destructor,
      List.count_cons, List.count_append]

/-- C2: while the run operation is pending, SIGHUP or SIGUSR1 runs the
application reconfigure callback (when defined) and posts no completion on
the run request (run continues); SIGINT or SIGTERM performs the shutdown
sequence and completes the run request with EINTR. -/
theorem signal_semantics (sockd : SockDaemonContext) (signum : Nat) :
    ((signum = SIGHUP ∨ signum = SIGUSR1) →
      (sock_daemon_signal_handler signum sockd).2.2 = none ∧
      (sock_daemon_signal_handler signum sockd).1 = sockd ∧
      (sock_daemon_signal_handler signum sockd).2.1 =
        sock_daemon_reconfigure sockd ∧
      (Event.reconfigureCalled ∈
          (sock_daemon_signal_handler signum sockd).2.1 ↔
        has_reconfigure_cb sockd = true)) ∧
    ((signum = SIGINT ∨ signum = SIGTERM) →
      (sock_daemon_signal_handler signum sockd).2.2 = some errIntr ∧
      (sock_daemon_signal_handler signum sockd).2.1 =
        (sock_daemon_shutdown sockd).2 ∧
      (sock_daemon_signal_handler signum sockd).1 =
        (sock_daemon_shutdown sockd).1) := by
  constructor
  · rintro (rfl | rfl) <;>
      · refine ⟨by simp [sock_daemon_signal_handler],
          by simp [sock_daemon_signal_handler],
          by simp [sock_daemon_signal_handler], ?_⟩
        cases h : has_reconfigure_cb sockd <;>
          simp [sock_daemon_signal_handler, sock_daemon_reconfigure, h]
  · rintro (rfl | rfl) <;>
      simp [sock_daemon_signal_handler, SIGINT, SIGTERM, SIGHUP, SIGUSR1]

/-- C3 counterexample: on a daemon context with a defined shutdown
callback, one listener and a held PID file, a second invocation of the
shutdown sequence invokes the application shutdown callback again (an
additional observable effect), refuting idempotence as claimed. -/
theorem second_shutdown_calls_callback_again :
    Event.shutdownCalled ∈
      (sock_daemon_shutdown
        (sock_daemon_shutdown
          { funcs := some { startup_defined := true,
                            reconfigure_defined := true,
                            shutdown_defined := true },
            pid_ctx := true,
            socket_list := [{ sockpath := "/tmp/test.sock", fd := 4,
                              sessions := [{ destructor_set := true,
                                             client_ctx := some { fd := 5 }
                                           }] }] }).1).2 ∧
    (sock_daemon_shutdown
        { funcs := some { startup_defined := true,
                          reconfigure_defined := true,
                          shutdown_defined := true },
          pid_ctx := true,
          socket_list := [{ sockpath := "/tmp/test.sock", fd := 4,
                            sessions := [{ destructor_set := true,
                                           client_ctx := some { fd := 5 }
                                         }] }] }).2.count
      Event.shutdownCalled = 1 := by
  decide

/-- C3 (amended): the resource side of the shutdown sequence is
idempotent — after one invocation, a further invocation detaches no
listener, closes no fd, unlinks no path and does not release the PID file
again, and leaves the context unchanged — but the application shutdown
callback is invoked again on every invocation (the only event of the
second call). -/
theorem shutdown_resources_idempotent (sockd : SockDaemonContext) :
    (sock_daemon_shutdown (sock_daemon_shutdown sockd).1).2 =
      (if has_shutdown_cb sockd then [Event.shutdownCalled] else []) ∧
    (sock_daemon_shutdown (sock_daemon_shutdown sockd).1).1 =
      (sock_daemon_shutdown sockd).1 ∧
    Event.pidReleased ∉
      (sock_daemon_shutdown (sock_daemon_shutdown sockd).1).2 ∧
    ∀ x ∈ (sock_daemon_shutdown (sock_daemon_shutdown sockd).1).2,
      is_teardown_event x = false := by
  have hcb : has_shutdown_cb
      { sockd with socket_list := [], pid_ctx := false } =
      has_shutdown_cb sockd := rfl
  refine ⟨?_, ?_, ?_, ?_⟩
  · show (sock_daemon_shutdown
        { sockd with socket_list := [], pid_ctx := false }).2 = _
    unfold sock_daemon_shutdown
    rw [hcb]
    simp [shutdown_loop]
  · rfl
  · show Event.pidReleased ∉ (sock_daemon_shutdown
        { sockd with socket_list := [], pid_ctx := false }).2
    unfold sock_daemon_shutdown
    rw [hcb]
    cases h : has_shutdown_cb sockd <;> simp [shutdown_loop, h]
  · intro x hx
    replace hx : x ∈ (sock_daemon_shutdown
        { sockd with socket_list := [], pid_ctx := false }).2 := hx
    unfold sock_daemon_shutdown at hx
    rw [hcb] at hx
    cases h : has_shutdown_cb sockd <;> simp [shutdown_loop, h] at hx
    simp [hx, is_teardown_event]

/-- C4: the shutdown sequence first tears every listener down in list
order (each listener: destroy all its sessions, close its fd, unlink its
path), then invokes the application shutdown callback (when defined), and
finally releases the PID file; the teardown phase consists only of
teardown events, so the three phases occur in exactly this order. -/
theorem shutdown_order (sockd : SockDaemonContext) :
    (sock_daemon_shutdown sockd).2 =
      shutdown_loop sockd.socket_list ++
        (if has_shutdown_cb sockd then [Event.shutdownCalled] else []) ++
        (if sockd.pid_ctx then [Event.pidReleased] else []) ∧
    (∀ x ∈ shutdown_loop sockd.socket_list, is_teardown_event x = true) ∧
    (∀ s ∈ sockd.socket_list,
        Event.unlinked s.sockpath ∈ (sock_daemon_shutdown sockd).2 ∧
        (s.fd ≠ -1 → Event.fdClosed s.fd ∈ (sock_daemon_shutdown sockd).2) ∧
        (∀ en ∈ s.sessions, ∀ c, en.client_ctx = some c →
            Event.sessionFreed ∈ (sock_daemon_shutdown sockd).2)) ∧
    (Event.shutdownCalled ∈ (sock_daemon_shutdown sockd).2 ↔
        has_shutdown_cb sockd = true) ∧
    (Event.pidReleased ∈ (sock_daemon_shutdown sockd).2 ↔
        sockd.pid_ctx = true) ∧
    (sock_daemon_shutdown sockd).1.socket_list = [] ∧
    (sock_daemon_shutdown sockd).1.pid_ctx = false := by
  refine ⟨rfl, teardown_only_shutdown_loop sockd.socket_list, ?_, ?_, ?_,
    rfl, rfl⟩
  · intro s hs
    refine ⟨?_, ?_, ?_⟩
    · show Event.unlinked s.sockpath ∈ (sock_daemon_shutdown sockd).2
      unfold sock_daemon_shutdown
      refine List.mem_append_left _ (List.mem_append_left _ ?_)
      refine mem_shutdown_loop_of_mem _ s hs _ ?_
      refine List.mem_append_right _ ?_
      unfold sock_socket_destructor
      by_cases h : s.fd = -1 <;> simp [h]
    · intro hfd
      unfold sock_daemon_shutdown
      refine List.mem_append_left _ (List.mem_append_left _ ?_)
      refine mem_shutdown_loop_of_mem _ s hs _ ?_
      refine List.mem_append_right _ ?_
      unfold sock_socket_destructor
      simp [hfd]
    · intro en hen c hc
      unfold sock_daemon_shutdown
      refine List.mem_append_left _ (List.mem_append_left _ ?_)
      refine mem_shutdown_loop_of_mem _ s hs _ ?_
      refine List.mem_append_left _ ?_
      exact sessionFreed_mem_state_destructor s.sessions en hen c hc
  · constructor
    · intro hmem
      unfold sock_daemon_shutdown at hmem
      rw [List.append_assoc, List.mem_append, List.mem_append] at hmem
      rcases hmem with hmem | hmem | hmem
      · have := teardown_only_shutdown_loop sockd.socket_list _ hmem
        simp [is_teardown_event] at this
      · by_cases hcb : has_shutdown_cb sockd
        · exact hcb
        · simp [hcb] at hmem
      · by_cases hp : sockd.pid_ctx <;> simp [hp] at hmem
    · intro hcb
      unfold sock_daemon_shutdown
      simp [hcb]
  · constructor
    · intro hmem
      unfold sock_daemon_shutdown at hmem
      rw [List.append_assoc, List.mem_append, List.mem_append] at hmem
      rcases hmem with hmem | hmem | hmem
      · have := teardown_only_shutdown_loop sockd.socket_list _ hmem
        simp [is_teardown_event] at this
      · by_cases hcb : has_shutdown_cb sockd <;> simp [hcb] at hmem
      · by_cases hp : sockd.pid_ctx
        · exact hp
        · simp [hp] at hmem
    · intro hp
      unfold sock_daemon_shutdown
      simp [hp]

/-- C5 counterexample: registering a listener whose socket path has 108
characters (it does not fit sun_path) makes sock_socket_init fail, but the
error surfaced is EIO (the IO kind), not EINVAL (the InvalidArgument
kind), refuting that the error is of the InvalidArgument kind. -/
theorem long_path_error_is_eio_not_einval :
    (sock_socket_init (String.mk (List.replicate 108 'a'))
        (some { connect_defined := false, disconnect_defined := false,
                read_send_defined := true, read_recv_defined := true })
        false true
        { socketOk := true, setBlockingOk := true, bindOk := true,
          listenOk := true, newFd := 6 }).1 = Except.error errIo ∧
    errIo ≠ errInval :=
  ⟨rfl, by decide⟩

/-- C5 (amended): registering a Unix socket listener with a socket path
too long for sun_path fails with the IO error kind (EIO, because
socket_setup's -1 is mapped to EIO by sock_socket_init), the daemon
context is unchanged, and no file descriptor is ever opened (the length
check precedes the socket call, so none can be left open). -/
theorem long_path_fails_io_no_fd (sockd : SockDaemonContext)
    (sockpath : String) (f : SockSocketFuncs) (env : SetupEnv)
    (hsend : f.read_send_defined = true)
    (hrecv : f.read_recv_defined = true)
    (hlen : sun_path_size ≤ sockpath.length) :
    (sock_daemon_add_unix sockd sockpath (some f) true env).2.1 = errIo ∧
    (sock_daemon_add_unix sockd sockpath (some f) true env).1 = sockd ∧
    (sock_daemon_add_unix sockd sockpath (some f) true env).2.2 = [] := by
  unfold sock_daemon_add_unix sock_socket_init socket_setup
  simp [hsend, hrecv, hlen]

/-- C5 witness. -/
theorem long_path_fails_io_no_fd_witness :
    (sock_daemon_add_unix
        { funcs := none, pid_ctx := false, socket_list := [] }
        (String.mk (List.replicate 108 'a'))
        (some { connect_defined := false, disconnect_defined := false,
                read_send_defined := true, read_recv_defined := true })
        true
        { socketOk := true, setBlockingOk := true, bindOk := true,
          listenOk := true, newFd := 6 }).2.1 = errIo ∧
    (sock_daemon_add_unix
        { funcs := none, pid_ctx := false, socket_list := [] }
        (String.mk (List.replicate 108 'a'))
        (some { connect_defined := false, disconnect_defined := false,
                read_send_defined := true, read_recv_defined := true })
        true
        { socketOk := true, setBlockingOk := true, bindOk := true,
          listenOk := true, newFd := 6 }).1 =
      { funcs := none, pid_ctx := false, socket_list := [] } ∧
    (sock_daemon_add_unix
        { funcs := none, pid_ctx := false, socket_list := [] }
        (String.mk (List.replicate 108 'a'))
        (some { connect_defined := false, disconnect_defined := false,
                read_send_defined := true, read_recv_defined := true })
        true
        { socketOk := true, setBlockingOk := true, bindOk := true,
          listenOk := true, newFd := 6 }).2.2 = [] :=
  long_path_fails_io_no_fd
    { funcs := none, pid_ctx := false, socket_list := [] }
    (String.mk (List.replicate 108 'a'))
    { connect_defined := false, disconnect_defined := false,
      read_send_defined := true, read_recv_defined := true }
    { socketOk := true, setBlockingOk := true, bindOk := true,
      listenOk := true, newFd := 6 }
    rfl rfl (by decide)

/-- C6: add_unix with a NULL callback table, or one lacking read_send or
read_recv, returns EINVAL, leaves the daemon context unchanged (no
listener appended) and performs no action at all — in particular the
socket call is never reached and no file descriptor is created. -/
theorem add_unix_missing_callbacks_einval (sockd : SockDaemonContext)
    (sockpath : String) (funcs : Option SockSocketFuncs) (allocOk : Bool)
    (env : SetupEnv)
    (h : funcs = none ∨ ∃ f, funcs = some f ∧
          (f.read_send_defined = false ∨ f.read_recv_defined = false)) :
    (sock_daemon_add_unix sockd sockpath funcs allocOk env).2.1 =
      errInval ∧
    (sock_daemon_add_unix sockd sockpath funcs allocOk env).1 = sockd ∧
    (sock_daemon_add_unix sockd sockpath funcs allocOk env).2.2 = [] := by
  rcases h with rfl | ⟨f, rfl, hf⟩
  · simp [sock_daemon_add_unix, sock_socket_init]
  · rcases hf with hf | hf <;>
      simp [sock_daemon_add_unix, sock_socket_init, hf]

/-- C6 witness. -/
theorem add_unix_missing_callbacks_einval_witness :
    (sock_daemon_add_unix
        { funcs := none, pid_ctx := false, socket_list := [] }
        "/tmp/test.sock"
        (some { connect_defined := true, disconnect_defined := true,
                read_send_defined := false, read_recv_defined := true })
        true
        { socketOk := true, setBlockingOk := true, bindOk := true,
          listenOk := true, newFd := 6 }).2.1 = errInval ∧
    (sock_daemon_add_unix
        { funcs := none, pid_ctx := false, socket_list := [] }
        "/tmp/test.sock"
        (some { connect_defined := true, disconnect_defined := true,
                read_send_defined := false, read_recv_defined := true })
        true
        { socketOk := true, setBlockingOk := true, bindOk := true,
          listenOk := true, newFd := 6 }).1 =
      { funcs := none, pid_ctx := false, socket_list := [] } ∧
    (sock_daemon_add_unix
        { funcs := none, pid_ctx := false, socket_list := [] }
        "/tmp/test.sock"
        (some { connect_defined := true, disconnect_defined := true,
                read_send_defined := false, read_recv_defined := true })
        true
        { socketOk := true, setBlockingOk := true, bindOk := true,
          listenOk := true, newFd := 6 }).2.2 = [] :=
  add_unix_missing_callbacks_einval
    { funcs := none, pid_ctx := false, socket_list := [] }
    "/tmp/test.sock"
    (some { connect_defined := true, disconnect_defined := true,
            read_send_defined := false, read_recv_defined := true })
    true
    { socketOk := true, setBlockingOk := true, bindOk := true,
      listenOk := true, newFd := 6 }
    (Or.inr ⟨_, rfl, Or.inl rfl⟩)

/-- C7: when on_connect returns false, session init immediately frees the
session and closes the accepted fd, yet returns 0; at the accept loop this
surfaces no error (the request stays alive, no error posted), and no live
session is installed in the registry (the new slot's session pointer is
none). -/
theorem connect_false_rejects_cleanly (fd : Int) (cl : List RegEntry) :
    (sock_client_context_init
        { allocClientCtxOk := true, commSetupRet := 0,
          connectResult := some false } fd).ret = 0 ∧
    (sock_client_context_init
        { allocClientCtxOk := true, commSetupRet := 0,
          connectResult := some false } fd).events =
      [Event.connectCalled, Event.sessionFreed, Event.fdClosed fd] ∧
    (sock_socket_start_new_client
        { acceptedFd := some fd, repostOk := true, allocClientOk := true,
          client := { allocClientCtxOk := true, commSetupRet := 0,
                      connectResult := some false } } cl).reqErr = none ∧
    (sock_socket_start_new_client
        { acceptedFd := some fd, repostOk := true, allocClientOk := true,
          client := { allocClientCtxOk := true, commSetupRet := 0,
                      connectResult := some false } } cl).loopAlive
      = true ∧
    ∀ en ∈ (sock_socket_start_new_client
        { acceptedFd := some fd, repostOk := true, allocClientOk := true,
          client := { allocClientCtxOk := true, commSetupRet := 0,
                      connectResult := some false } } cl).client_list,
      en ∉ cl → en.client_ctx = none := by
  refine ⟨rfl, rfl, rfl, rfl, ?_⟩
  intro en hen hnew
  simp [sock_socket_start_new_client, sock_client_context_init] at hen
  rcases hen with rfl | hen
  · rfl
  · exact absurd hen hnew

/-- C8: on each completion of the asynchronous accept, the only event that
can precede the re-posting of the next accept is logging an accept
failure — all processing of the just-accepted fd comes after the re-post;
and when the accept failed, the handler just logs and waits (the loop
stays alive, no error is posted, the registry is untouched). -/
theorem accept_loop_reposts_first (env : AcceptEnv) (cl : List RegEntry)
    (h : env.repostOk = true) :
    (∃ post,
        (sock_socket_start_new_client env cl).events =
          (match env.acceptedFd with
           | none => [Event.logAcceptFail]
           | some _ => []) ++ Event.acceptReposted :: post) ∧
    (env.acceptedFd = none →
        (sock_socket_start_new_client env cl).events =
          [Event.logAcceptFail, Event.acceptReposted] ∧
        (sock_socket_start_new_client env cl).loopAlive = true ∧
        (sock_socket_start_new_client env cl).reqErr = none ∧
        (sock_socket_start_new_client env cl).client_list = cl) := by
  constructor
  · unfold sock_socket_start_new_client
    rw [h]
    cases hfd : env.acceptedFd with
    | none => exact ⟨[], rfl⟩
    | some fd =>
        simp only [Bool.true_eq_false, if_false, List.nil_append]
        by_cases ha : env.allocClientOk = false
        · rw [if_pos ha]
          exact ⟨[Event.fdClosed fd], rfl⟩
        · rw [if_neg ha]
          by_cases hr : (sock_client_context_init env.client fd).ret ≠ 0
          · rw [if_pos hr]
            exact ⟨(sock_client_context_init env.client fd).events ++
              [Event.clientRecFreed], rfl⟩
          · rw [if_neg hr]
            exact ⟨(sock_client_context_init env.client fd).events ++
              [Event.clientInstalled], rfl⟩
  · intro hfd
    unfold sock_socket_start_new_client
    rw [h, hfd]
    exact ⟨rfl, rfl, rfl, rfl⟩

/-- C8 witness. -/
theorem accept_loop_reposts_first_witness :
    (∃ post,
        (sock_socket_start_new_client
          { acceptedFd := none, repostOk := true, allocClientOk := true,
            client := { allocClientCtxOk := true, commSetupRet := 0,
                        connectResult := none } } []).events =
          (match (none : Option Int) with
           | none => [Event.logAcceptFail]
           | some _ => []) ++ Event.acceptReposted :: post) ∧
    ((none : Option Int) = none →
        (sock_socket_start_new_client
          { acceptedFd := none, repostOk := true, allocClientOk := true,
            client := { allocClientCtxOk := true, commSetupRet := 0,
                        connectResult := none } } []).events =
          [Event.logAcceptFail, Event.acceptReposted] ∧
        (sock_socket_start_new_client
          { acceptedFd := none, repostOk := true, allocClientOk := true,
            client := { allocClientCtxOk := true, commSetupRet := 0,
                        connectResult := none } } []).loopAlive = true ∧
        (sock_socket_start_new_client
          { acceptedFd := none, repostOk := true, allocClientOk := true,
            client := { allocClientCtxOk := true, commSetupRet := 0,
                        connectResult := none } } []).reqErr = none ∧
        (sock_socket_start_new_client
          { acceptedFd := none, repostOk := true, allocClientOk := true,
            client := { allocClientCtxOk := true, commSetupRet := 0,
                        connectResult := none } } []).client_list = []) :=
  accept_loop_reposts_first
    { acceptedFd := none, repostOk := true, allocClientOk := true,
      client := { allocClientCtxOk := true, commSetupRet := 0,
                  connectResult := none } } [] rfl

/-- C9 (the code diverges from the claim): when a connection is accepted
(fd 7) and session construction fails because transport setup
(comm_setup) reports an error, the accept loop does continue, but the
accepted fd is never closed — it leaks (no fdClosed 7 event anywhere in
the handler's actions), contradicting the claim that the fd is closed. -/
theorem comm_setup_failure_leaks_fd :
    (sock_socket_start_new_client
        { acceptedFd := some 7, repostOk := true, allocClientOk := true,
          client := { allocClientCtxOk := true, commSetupRet := errIo,
                      connectResult := none } } []).loopAlive = true ∧
    Event.fdClosed 7 ∉
      (sock_socket_start_new_client
        { acceptedFd := some 7, repostOk := true, allocClientOk := true,
          client := { allocClientCtxOk := true, commSetupRet := errIo,
                      connectResult := none } } []).events ∧
    (sock_socket_start_new_client
        { acceptedFd := some 7, repostOk := true, allocClientOk := true,
          client := { allocClientCtxOk := true, commSetupRet := errIo,
                      connectResult := none } } []).events =
      [Event.acceptReposted, Event.sessionFreed, Event.clientRecFreed] := by
  decide

/-- C10: when on_connect returns false, sock_client_context_init returns
0 without writing its result out-parameter, and the accept handler
proceeds as on success: it installs a client record with destructor set
and a still-none session pointer at the head of the registry, where it
stays (freeing such a record at teardown runs no session destructor). -/
theorem rejected_connection_leaves_registry_entry (fd : Int)
    (cl : List RegEntry) :
    (sock_client_context_init
        { allocClientCtxOk := true, commSetupRet := 0,
          connectResult := some false } fd).ret = 0 ∧
    (sock_client_context_init
        { allocClientCtxOk := true, commSetupRet := 0,
          connectResult := some false } fd).resultWritten = false ∧
    (sock_socket_start_new_client
        { acceptedFd := some fd, repostOk := true, allocClientOk := true,
          client := { allocClientCtxOk := true, commSetupRet := 0,
                      connectResult := some false } } cl).client_list =
      { destructor_set := true, client_ctx := none } :: cl ∧
    Event.clientInstalled ∈
      (sock_socket_start_new_client
        { acceptedFd := some fd, repostOk := true, allocClientOk := true,
          client := { allocClientCtxOk := true, commSetupRet := 0,
                      connectResult := some false } } cl).events ∧
    sock_socket_start_client_destructor
        { destructor_set := true, client_ctx := none } =
      [Event.clientRecFreed] := by
  refine ⟨rfl, rfl, rfl, ?_, rfl⟩
  simp [sock_socket_start_new_client, sock_client_context_init]

end SockDaemon
